import Mathlib

/-!
Verification of jddf-examples/golang-postgres-analytics.

We shallowly embed the Go sources:
  * internal/event/event.go : the generated tagged-union `Event` type and its
    hand-written `MarshalJSON` / `UnmarshalJSON` switch logic;
  * cmd/golang-postgres-analytics/main.go : the `createEvent` and `getLTV`
    HTTP handlers.

Modelling conventions:
  * JSON values are an inductive `Json` type.  Byte-level JSON parsing and
    printing are Go standard-library concerns; handlers receive the result of
    `json.Unmarshal` on the request body (an `Except String Json`), and the
    codec operates on `Json` values.
  * Go `float64` numbers are modelled as `Rat` (the claims under study concern
    which values are combined, not floating-point rounding).
  * Go `time.Time` fields are modelled by their RFC3339 JSON string; the zero
    time is modelled by the empty string.  `time.Time` parse or format logic is
    standard library and out of scope.
  * The external database and the external jddf validation library are
    parameters of the handler functions (the spec declares both out of scope).
  * `net/http` response-writer semantics are modelled faithfully: the first
    `Write` commits an implicit status 200, and any later `WriteHeader` call is
    superfluous and ignored.
-/

/-- JSON values, as produced by Go `encoding/json` generic decoding
(`map[string]interface{}` etc.).  Object member order is kept (as in the byte
stream); like Go maps and Postgres jsonb, a duplicated key is resolved to its
last occurrence by `objLookup`. -/
inductive Json where
  | null : Json
  | bool (b : Bool) : Json
  | num (q : Rat) : Json
  | str (s : String) : Json
  | arr (elems : List Json) : Json
  | obj (members : List (String × Json)) : Json

/-- Field access on a JSON object member list: the last binding of the key
wins, matching Go map decoding and Postgres jsonb semantics. -/
def objLookup (kvs : List (String × Json)) (k : String) : Option Json :=
  (kvs.filter (fun p => p.1 = k)).getLast?.map (fun p => p.2)

/- ------------------------------------------------------------------ -/
/- internal/event/event.go                                             -/
/- ------------------------------------------------------------------ -/

abbrev EventType := String

def EventTypePageViewed : EventType := "Page Viewed"

def EventTypeOrderCompleted : EventType := "Order Completed"

def EventTypeHeartbeat : EventType := "Heartbeat"

/-- Variant struct for page-view events (fields Timestamp, Url, UserId). -/
structure EventPageViewed where
  timestamp : String
  url : String
  userId : String
deriving DecidableEq, Repr

/-- Variant struct for completed-order events (fields Timestamp, UserId,
Revenue). -/
structure EventOrderCompleted where
  timestamp : String
  userId : String
  revenue : Rat
deriving DecidableEq, Repr

/-- Variant struct for heartbeat events (fields Timestamp, UserId). -/
structure EventHeartbeat where
  timestamp : String
  userId : String
deriving DecidableEq, Repr

/-- Go zero value of `EventPageViewed`. -/
def EventPageViewed.zero : EventPageViewed := ⟨"", "", ""⟩

/-- Go zero value of `EventOrderCompleted`. -/
def EventOrderCompleted.zero : EventOrderCompleted := ⟨"", "", 0⟩

/-- Go zero value of `EventHeartbeat`. -/
def EventHeartbeat.zero : EventHeartbeat := ⟨"", ""⟩

/-- The tagged union: discriminator plus the three embedded variant structs. -/
structure Event where
  type : EventType
  eventPageViewed : EventPageViewed
  eventOrderCompleted : EventOrderCompleted
  eventHeartbeat : EventHeartbeat
deriving DecidableEq, Repr

/-- Go zero value of `Event`. -/
def Event.zero : Event :=
  ⟨"", EventPageViewed.zero, EventOrderCompleted.zero, EventHeartbeat.zero⟩

/-- Errors of the codec: `unknownVariant` is `ErrUnknownVariant`; `typeError`
stands for any error returned by the standard-library `json.Unmarshal`
(a JSON value of the wrong shape for the target). -/
inductive CodecError where
  | typeError : CodecError
  | unknownVariant : CodecError
deriving DecidableEq, Repr

/-- `EventPageViewed` rendered to JSON by the default struct marshaller, field
order as declared, with its json tags. -/
def EventPageViewed.toJsonFields (e : EventPageViewed) : List (String × Json) :=
  [("timestamp", Json.str e.timestamp), ("url", Json.str e.url),
   ("userId", Json.str e.userId)]

/-- `EventOrderCompleted` rendered to JSON by the default struct marshaller. -/
def EventOrderCompleted.toJsonFields (e : EventOrderCompleted) :
    List (String × Json) :=
  [("timestamp", Json.str e.timestamp), ("userId", Json.str e.userId),
   ("revenue", Json.num e.revenue)]

/-- `EventHeartbeat` rendered to JSON by the default struct marshaller. -/
def EventHeartbeat.toJsonFields (e : EventHeartbeat) : List (String × Json) :=
  [("timestamp", Json.str e.timestamp), ("userId", Json.str e.userId)]

/-- `Event.MarshalJSON`: switch on the discriminator; each case marshals an
anonymous struct holding the tag plus the matching embedded variant (whose
fields are flattened alongside the tag); the default case returns
`ErrUnknownVariant` and no bytes. -/
def Event.MarshalJSON (v : Event) : Except CodecError Json :=
  if v.type = "Page Viewed" then
    .ok (Json.obj (("type", Json.str "Page Viewed") ::
      v.eventPageViewed.toJsonFields))
  else if v.type = "Order Completed" then
    .ok (Json.obj (("type", Json.str "Order Completed") ::
      v.eventOrderCompleted.toJsonFields))
  else if v.type = "Heartbeat" then
    .ok (Json.obj (("type", Json.str "Heartbeat") ::
      v.eventHeartbeat.toJsonFields))
  else
    .error .unknownVariant

/-- Decoding a JSON object member into a Go `string` (or RFC3339 `time.Time`)
struct field: an absent key or a JSON null leaves the current value, a JSON
string overwrites it, any other shape is a `json.Unmarshal` type error. -/
def decodeStrField (kvs : List (String × Json)) (k : String) (cur : String) :
    Except CodecError String :=
  match objLookup kvs k with
  | none => .ok cur
  | some .null => .ok cur
  | some (.str s) => .ok s
  | some _ => .error .typeError

/-- Decoding a JSON object member into a Go `float64` struct field. -/
def decodeNumField (kvs : List (String × Json)) (k : String) (cur : Rat) :
    Except CodecError Rat :=
  match objLookup kvs k with
  | none => .ok cur
  | some .null => .ok cur
  | some (.num q) => .ok q
  | some _ => .error .typeError

/-- `json.Unmarshal(b, ampersand v.EventPageViewed)` on the object members of
`b`, updating the current struct value. -/
def EventPageViewed.decodeFrom (cur : EventPageViewed)
    (kvs : List (String × Json)) : Except CodecError EventPageViewed :=
  match decodeStrField kvs "timestamp" cur.timestamp with
  | .error e => .error e
  | .ok t =>
    match decodeStrField kvs "url" cur.url with
    | .error e => .error e
    | .ok u =>
      match decodeStrField kvs "userId" cur.userId with
      | .error e => .error e
      | .ok uid => .ok ⟨t, u, uid⟩

/-- `json.Unmarshal(b, ampersand v.EventOrderCompleted)` on the object members
of `b`. -/
def EventOrderCompleted.decodeFrom (cur : EventOrderCompleted)
    (kvs : List (String × Json)) : Except CodecError EventOrderCompleted :=
  match decodeStrField kvs "timestamp" cur.timestamp with
  | .error e => .error e
  | .ok t =>
    match decodeStrField kvs "userId" cur.userId with
    | .error e => .error e
    | .ok uid =>
      match decodeNumField kvs "revenue" cur.revenue with
      | .error e => .error e
      | .ok r => .ok ⟨t, uid, r⟩

/-- `json.Unmarshal(b, ampersand v.EventHeartbeat)` on the object members of
`b`. -/
def EventHeartbeat.decodeFrom (cur : EventHeartbeat)
    (kvs : List (String × Json)) : Except CodecError EventHeartbeat :=
  match decodeStrField kvs "timestamp" cur.timestamp with
  | .error e => .error e
  | .ok t =>
    match decodeStrField kvs "userId" cur.userId with
    | .error e => .error e
    | .ok uid => .ok ⟨t, uid⟩

/-- `Event.UnmarshalJSON`: decode `b` into a generic map (fails on non-objects;
a JSON null yields a nil map); read the `type` member with a string type
assertion (`ErrUnknownVariant` when absent or non-string); assign it to the
receiver, then switch on it to decode the matching variant; an unrecognised
tag returns `ErrUnknownVariant`.  The result pairs the (possibly mutated)
receiver with the error, mirroring the pointer receiver; partial writes of a
failed variant decode are not modelled beyond the already-assigned `Type`. -/
def Event.UnmarshalJSON (v : Event) (b : Json) : Event × Option CodecError :=
  match b with
  | .obj kvs =>
    match objLookup kvs "type" with
    | some (.str tag) =>
      let v1 := { v with type := tag }
      if tag = "Page Viewed" then
        match v.eventPageViewed.decodeFrom kvs with
        | .ok pv => ({ v1 with eventPageViewed := pv }, none)
        | .error e => (v1, some e)
      else if tag = "Order Completed" then
        match v.eventOrderCompleted.decodeFrom kvs with
        | .ok oc => ({ v1 with eventOrderCompleted := oc }, none)
        | .error e => (v1, some e)
      else if tag = "Heartbeat" then
        match v.eventHeartbeat.decodeFrom kvs with
        | .ok hb => ({ v1 with eventHeartbeat := hb }, none)
        | .error e => (v1, some e)
      else
        (v1, some .unknownVariant)
    | _ => (v, some .unknownVariant)
  | .null => (v, some .unknownVariant)
  | _ => (v, some .typeError)

/- ------------------------------------------------------------------ -/
/- cmd/golang-postgres-analytics/main.go                               -/
/- ------------------------------------------------------------------ -/

/-- A jddf-go validation error, as encoded to the response: an object with
`instancePath` and `schemaPath` members (JSON pointer tokens). -/
structure ValidationError where
  instancePath : List String
  schemaPath : List String
deriving DecidableEq, Repr

/-- A chunk written to the HTTP response body.  `bytes` is a
`fmt.Fprintf(w, percent-s, x)` write (error strings, the echoed payload);
`errorList` is `json.NewEncoder(w).Encode(validationResult.Errors)`;
`fnum` is `fmt.Fprintf(w, percent-f, sum)`. -/
inductive Out where
  | bytes (s : String) : Out
  | errorList (es : List ValidationError) : Out
  | fnum (q : Rat) : Out
deriving DecidableEq, Repr

/-- `net/http` response writer: `status = none` means the header is not yet
committed. -/
structure ResponseWriter where
  status : Option Nat
  body : List Out
deriving DecidableEq, Repr

/-- A fresh response writer. -/
def ResponseWriter.init : ResponseWriter := ⟨none, []⟩

/-- `Write` on a `net/http` response writer: if `WriteHeader` has not been
called yet, the first write commits an implicit status 200. -/
def ResponseWriter.write (w : ResponseWriter) (o : Out) : ResponseWriter :=
  { status := some (w.status.getD 200), body := w.body ++ [o] }

/-- `WriteHeader` on a `net/http` response writer: once the header is
committed the call is superfluous and ignored. -/
def ResponseWriter.writeHeader (w : ResponseWriter) (code : Nat) :
    ResponseWriter :=
  match w.status with
  | some _ => w
  | none => { w with status := some code }

/-- Result of one `createEvent` request: the HTTP response and the payload
inserted into the events table (none if the insert was not reached or
failed). -/
structure CreateEffect where
  response : ResponseWriter
  inserted : Option String
deriving DecidableEq, Repr

/-- `server.createEvent` (POST /v1/events).  Parameters model the external
collaborators: `parsed` is what `json.Unmarshal` returned on the request body
`buf` (error value carries the Go error message); `valErrors` is the error
list the external jddf validator returned for the parsed value against the
loaded schema; `insertErr` is the outcome of the Postgres insert.  The body
read from the network is assumed to succeed (its failure branch is pure IO).

The validation-failure branch reproduces the source order faithfully: the
error list is encoded to the response writer FIRST, and `WriteHeader(400)` is
called only after that write. -/
def createEvent (buf : String) (parsed : Except String Json)
    (valErrors : List ValidationError) (insertErr : Option String) :
    CreateEffect :=
  let w := ResponseWriter.init
  match parsed with
  | .error msg =>
    { response := (w.writeHeader 400).write (.bytes msg), inserted := none }
  | .ok _ =>
    if valErrors.isEmpty then
      match insertErr with
      | some msg =>
        { response := (w.writeHeader 500).write (.bytes msg),
          inserted := none }
      | none =>
        { response := (w.writeHeader 200).write (.bytes buf),
          inserted := some buf }
    else
      { response := ((w.write (.errorList valErrors)).writeHeader 400),
        inserted := none }

/-- The WHERE clause of the getLTV query:
`payload ->> 'type' = 'Order Completed' and payload ->> 'userId' = $1`.
For payloads conforming to the event schema these members are JSON strings;
the `->>` text extraction of non-string scalars is abstracted (a missing
member or a JSON null yields SQL NULL, which never compares equal). -/
def sqlWhere (userID : String) (payload : Json) : Bool :=
  match payload with
  | .obj kvs =>
    (match objLookup kvs "type" with
     | some (.str t) => t = "Order Completed"
     | _ => false) &&
    (match objLookup kvs "userId" with
     | some (.str u) => u = userID
     | _ => false)
  | _ => false

/-- The decode loop of `getLTV`: each selected payload is unmarshalled into a
zero `event.Event`; the first failure aborts with its error. -/
def decodeAll : List Json → Except CodecError (List Event)
  | [] => .ok []
  | p :: ps =>
    match Event.UnmarshalJSON Event.zero p with
    | (_, some e) => .error e
    | (ev, none) =>
      match decodeAll ps with
      | .error e => .error e
      | .ok evs => .ok (ev :: evs)

/-- `server.getLTV` (GET /v1/ltv?userId=...).  `store` is the contents of the
events table as jsonb payloads, `queryErr` the outcome of the SELECT.  On
success the revenues of the decoded events are summed left to right starting
at 0 and written with status 200. -/
def getLTV (userID : String) (store : List Json) (queryErr : Option String) :
    ResponseWriter :=
  let w := ResponseWriter.init
  match queryErr with
  | some msg => (w.writeHeader 500).write (.bytes msg)
  | none =>
    let selected := store.filter (sqlWhere userID)
    match decodeAll selected with
    | .error _ => (w.writeHeader 500).write (.bytes "json unmarshal error")
    | .ok events =>
      let sum := events.foldl
        (fun acc ev => acc + ev.eventOrderCompleted.revenue) 0
      (w.writeHeader 200).write (.fnum sum)

/- ------------------------------------------------------------------ -/
/- Spec-side definitions                                               -/
/- ------------------------------------------------------------------ -/

/-- "Only the variant matching the discriminator has populated fields": every
variant struct other than the one named by the discriminator holds its zero
value. -/
def onlyMatchingVariantPopulated (v : Event) : Prop :=
  (v.type ≠ "Page Viewed" → v.eventPageViewed = EventPageViewed.zero) ∧
  (v.type ≠ "Order Completed" →
    v.eventOrderCompleted = EventOrderCompleted.zero) ∧
  (v.type ≠ "Heartbeat" → v.eventHeartbeat = EventHeartbeat.zero)

instance (v : Event) : Decidable (onlyMatchingVariantPopulated v) := by
  unfold onlyMatchingVariantPopulated; infer_instance

/-- Data-model invariant: the discriminator names one of the three variants
and the fields of the other two variants are zero. -/
def variantInvariant (e : Event) : Prop :=
  (e.type = "Page Viewed" ∧ e.eventOrderCompleted = EventOrderCompleted.zero ∧
    e.eventHeartbeat = EventHeartbeat.zero) ∨
  (e.type = "Order Completed" ∧ e.eventPageViewed = EventPageViewed.zero ∧
    e.eventHeartbeat = EventHeartbeat.zero) ∨
  (e.type = "Heartbeat" ∧ e.eventPageViewed = EventPageViewed.zero ∧
    e.eventOrderCompleted = EventOrderCompleted.zero)

/-- Spec-side reading of a string member of a stored event. -/
def specStrMember (p : Json) (k : String) : Option String :=
  match p with
  | .obj kvs =>
    match objLookup kvs k with
    | some (.str s) => some s
    | _ => none
  | _ => none

/-- Spec-side: "those stored events whose type is Order Completed and whose
userId equals the given identifier". -/
def specIsOrderOf (userID : String) (p : Json) : Bool :=
  (specStrMember p "type" = some "Order Completed") &&
  (specStrMember p "userId" = some userID)

/-- Spec-side: "the revenue field" of a stored event (zero when absent). -/
def specRevenue (p : Json) : Rat :=
  match p with
  | .obj kvs =>
    match objLookup kvs "revenue" with
    | some (.num q) => q
    | _ => 0
  | _ => 0

/-- Spec-side LTV, written from the spec text alone: the sum of the revenue
fields of exactly those stored events whose type is "Order Completed" and
whose userId equals the given identifier. -/
def ltvSpec (userID : String) (store : List Json) : Rat :=
  ((store.filter (specIsOrderOf userID)).map specRevenue).sum

/- ------------------------------------------------------------------ -/
/- Theorems                                                            -/
/- ------------------------------------------------------------------ -/

/-- C5: for every request body that parses as JSON and passes schema
validation (no validation errors), when the storage insert succeeds the
createEvent handler persists the raw request bytes verbatim and responds with
status 200 and a body equal to those same bytes. -/
theorem createEvent_success_echoes_and_persists_verbatim
    (buf : String) (j : Json) :
    createEvent buf (.ok j) [] none
      = ⟨⟨some 200, [Out.bytes buf]⟩, some buf⟩ := rfl

/-- C6: for every request body that is not well-formed JSON (generic decode
fails), the createEvent handler responds with status 400 and persists nothing,
whatever the validator or the database would have done. -/
theorem createEvent_malformed_json_400_no_persist
    (buf msg : String) (valErrors : List ValidationError)
    (insertErr : Option String) :
    createEvent buf (.error msg) valErrors insertErr
      = ⟨⟨some 400, [Out.bytes msg]⟩, none⟩ := rfl

/-- C2 (actual code behaviour at a failing input): for a well-formed JSON body
that fails schema validation, the handler encodes the error list to the
response writer BEFORE calling WriteHeader(400); the first write commits an
implicit status 200, so the committed status is 200, not the 400 the code
intends.  Evaluated at a body missing the required fields of its declared
variant. -/
theorem createEvent_validation_errors_commit_status_200 :
    (createEvent "request-bytes"
        (.ok (Json.obj [("type", Json.str "Heartbeat")]))
        [⟨[], ["properties", "timestamp"]⟩] none).response
      = ⟨some 200, [Out.errorList [⟨[], ["properties", "timestamp"]⟩]]⟩ := rfl

/-- C3: an event whose discriminator is none of the three known tags marshals
to `ErrUnknownVariant` and no bytes; and a JSON object whose type member is a
string equal to none of the three known tags unmarshals (into any receiver)
to the same `ErrUnknownVariant`. -/
theorem marshal_unmarshal_unknown_tag (v w : Event)
    (kvs : List (String × Json)) (tag : String)
    (hv1 : v.type ≠ "Page Viewed") (hv2 : v.type ≠ "Order Completed")
    (hv3 : v.type ≠ "Heartbeat")
    (ht : objLookup kvs "type" = some (Json.str tag))
    (h1 : tag ≠ "Page Viewed") (h2 : tag ≠ "Order Completed")
    (h3 : tag ≠ "Heartbeat") :
    v.MarshalJSON = .error .unknownVariant ∧
    (Event.UnmarshalJSON w (Json.obj kvs)).2 = some .unknownVariant := by
  constructor
  · simp [Event.MarshalJSON, hv1, hv2, hv3]
  · simp [Event.UnmarshalJSON, ht, h1, h2, h3]

/-- C3 witness: evaluated at the tag "User Deleted". -/
theorem marshal_unmarshal_unknown_tag_witness :
    ({ Event.zero with type := "User Deleted" } : Event).MarshalJSON
        = .error .unknownVariant ∧
    (Event.UnmarshalJSON Event.zero
        (Json.obj [("type", Json.str "User Deleted")])).2
      = some .unknownVariant :=
  marshal_unmarshal_unknown_tag { Event.zero with type := "User Deleted" }
    Event.zero [("type", Json.str "User Deleted")] "User Deleted"
    (by decide) (by decide) (by decide) rfl
    (by decide) (by decide) (by decide)

/-- C8: UnmarshalJSON is not atomic on error: on a JSON object whose type
member is an unrecognised tag string, the receiver has already been mutated
when `ErrUnknownVariant` is returned: its Type field holds the unrecognised
tag, so the zero receiver is not left unchanged. -/
theorem unmarshal_unknown_tag_mutates_receiver
    (kvs : List (String × Json)) (tag : String)
    (ht : objLookup kvs "type" = some (Json.str tag))
    (h1 : tag ≠ "Page Viewed") (h2 : tag ≠ "Order Completed")
    (h3 : tag ≠ "Heartbeat") (h0 : tag ≠ "") :
    Event.UnmarshalJSON Event.zero (Json.obj kvs)
        = ({ Event.zero with type := tag }, some .unknownVariant) ∧
    ({ Event.zero with type := tag } : Event) ≠ Event.zero := by
  constructor
  · simp [Event.UnmarshalJSON, ht, h1, h2, h3]
  · simp [Event.zero, Event.mk.injEq, h0]

/-- C8 witness: evaluated at the tag "User Created". -/
theorem unmarshal_unknown_tag_mutates_receiver_witness :
    Event.UnmarshalJSON Event.zero
        (Json.obj [("type", Json.str "User Created")])
        = ({ Event.zero with type := "User Created" }, some .unknownVariant) ∧
    ({ Event.zero with type := "User Created" } : Event) ≠ Event.zero :=
  unmarshal_unknown_tag_mutates_receiver
    [("type", Json.str "User Created")] "User Created"
    rfl (by decide) (by decide) (by decide) (by decide)

/-- C9: UnmarshalJSON does not require variant fields to be present: a JSON
object whose type member is one of the three known tags decodes successfully
into a zero receiver even when timestamp, url, userId and revenue are all
absent, leaving every variant field at its zero value. -/
theorem unmarshal_known_tag_absent_fields_zero
    (kvs : List (String × Json)) (tag : String)
    (ht : objLookup kvs "type" = some (Json.str tag))
    (hk : tag = "Page Viewed" ∨ tag = "Order Completed" ∨ tag = "Heartbeat")
    (hts : objLookup kvs "timestamp" = none)
    (hurl : objLookup kvs "url" = none)
    (huid : objLookup kvs "userId" = none)
    (hrev : objLookup kvs "revenue" = none) :
    Event.UnmarshalJSON Event.zero (Json.obj kvs)
      = ({ Event.zero with type := tag }, none) := by
  rcases hk with h | h | h <;> subst h <;>
    simp [Event.UnmarshalJSON, ht, EventPageViewed.decodeFrom,
      EventOrderCompleted.decodeFrom, EventHeartbeat.decodeFrom,
      decodeStrField, decodeNumField, hts, hurl, huid, hrev,
      Event.zero, EventPageViewed.zero, EventOrderCompleted.zero,
      EventHeartbeat.zero]

/-- C9 witness: evaluated at an object holding only the Heartbeat tag. -/
theorem unmarshal_known_tag_absent_fields_zero_witness :
    Event.UnmarshalJSON Event.zero (Json.obj [("type", Json.str "Heartbeat")])
      = ({ Event.zero with type := "Heartbeat" }, none) :=
  unmarshal_known_tag_absent_fields_zero
    [("type", Json.str "Heartbeat")] "Heartbeat"
    rfl (by decide) rfl rfl rfl rfl

/-- C1: an event whose discriminator is one of the three known tags and in
which only the matching variant is populated marshals successfully, and
unmarshalling the result into a zero receiver returns the original event. -/
theorem marshal_unmarshal_roundtrip (v : Event)
    (hknown : v.type = "Page Viewed" ∨ v.type = "Order Completed" ∨
      v.type = "Heartbeat")
    (honly : onlyMatchingVariantPopulated v) :
    ∃ j, v.MarshalJSON = .ok j ∧
      Event.UnmarshalJSON Event.zero j = (v, none) := by
  obtain ⟨ty, pv, oc, hb⟩ := v
  obtain ⟨h1, h2, h3⟩ := honly
  dsimp only at h1 h2 h3 hknown
  rcases hknown with h | h | h <;> subst h
  · rw [h2 (by decide), h3 (by decide)]
    exact ⟨_, rfl, rfl⟩
  · rw [h1 (by decide), h3 (by decide)]
    exact ⟨_, rfl, rfl⟩
  · rw [h1 (by decide), h2 (by decide)]
    exact ⟨_, rfl, rfl⟩

/-- C1 witness: an Order Completed event with revenue 42 round-trips. -/
theorem marshal_unmarshal_roundtrip_witness :
    ∃ j,
      (Event.mk "Order Completed" EventPageViewed.zero
          ⟨"2019-10-27T00:00:00Z", "alice", 42⟩
          EventHeartbeat.zero).MarshalJSON = .ok j ∧
      Event.UnmarshalJSON Event.zero j
        = (Event.mk "Order Completed" EventPageViewed.zero
            ⟨"2019-10-27T00:00:00Z", "alice", 42⟩
            EventHeartbeat.zero, none) :=
  marshal_unmarshal_roundtrip
    (Event.mk "Order Completed" EventPageViewed.zero
      ⟨"2019-10-27T00:00:00Z", "alice", 42⟩ EventHeartbeat.zero)
    (by decide) (by decide)

/-- C7: whenever UnmarshalJSON succeeds into a zero receiver, the resulting
event satisfies the data-model invariant: the discriminator names the decoded
variant and the other two variant structs are zero. -/
theorem unmarshal_success_variant_invariant (b : Json) (e : Event)
    (h : Event.UnmarshalJSON Event.zero b = (e, none)) :
    variantInvariant e := by
  cases b with
  | obj kvs =>
    simp only [Event.UnmarshalJSON] at h
    repeat' split at h
    all_goals injection h with h1 h2
    all_goals try cases h2
    all_goals subst h1
    all_goals simp_all [variantInvariant, Event.zero, EventPageViewed.zero,
      EventOrderCompleted.zero, EventHeartbeat.zero]
  | null => simp [Event.UnmarshalJSON] at h
  | bool c => simp [Event.UnmarshalJSON] at h
  | num q => simp [Event.UnmarshalJSON] at h
  | str s => simp [Event.UnmarshalJSON] at h
  | arr xs => simp [Event.UnmarshalJSON] at h

/-- C7 witness: a decoded Page Viewed object satisfies the invariant. -/
theorem unmarshal_success_variant_invariant_witness :
    variantInvariant
      (Event.mk "Page Viewed" ⟨"", "https://example.com/a", ""⟩
        EventOrderCompleted.zero EventHeartbeat.zero) :=
  unmarshal_success_variant_invariant
    (Json.obj [("type", Json.str "Page Viewed"),
               ("url", Json.str "https://example.com/a")])
    _ rfl

/-- The SQL WHERE clause of getLTV computes the spec-side membership test. -/
theorem sqlWhere_eq_specIsOrderOf (userID : String) (p : Json) :
    sqlWhere userID p = specIsOrderOf userID p := by
  cases p with
  | obj kvs =>
    simp only [sqlWhere, specIsOrderOf, specStrMember]
    obtain ⟨o1, ho1⟩ : ∃ o, objLookup kvs "type" = o := ⟨_, rfl⟩
    obtain ⟨o2, ho2⟩ : ∃ o, objLookup kvs "userId" = o := ⟨_, rfl⟩
    simp only [ho1, ho2]
    rcases o1 with _ | j1 <;> rcases o2 with _ | j2
    · simp
    · cases j2 <;> simp
    · cases j1 <;> simp
    · cases j1 <;> cases j2 <;> simp
  | null => rfl
  | bool c => rfl
  | num q => rfl
  | str s => rfl
  | arr xs => rfl

/-- The decode loop succeeds on a list of decodable payloads and returns the
decoded events in order. -/
theorem decodeAll_ok (l : List Json)
    (h : ∀ p ∈ l, (Event.UnmarshalJSON Event.zero p).2 = none) :
    decodeAll l
      = .ok (l.map (fun p => (Event.UnmarshalJSON Event.zero p).1)) := by
  induction l with
  | nil => rfl
  | cons p ps ih =>
    have hp := h p (List.mem_cons_self p ps)
    have hps := ih (fun q hq => h q (List.mem_cons_of_mem p hq))
    obtain ⟨ev, err, hu⟩ :
        ∃ ev err, Event.UnmarshalJSON Event.zero p = (ev, err) := ⟨_, _, rfl⟩
    rw [hu] at hp
    dsimp only at hp
    subst hp
    simp [decodeAll, hu, hps]

/-- Summing revenues by a left fold equals adding the mapped sum. -/
theorem foldl_add_revenue (l : List Event) (a : Rat) :
    l.foldl (fun acc ev => acc + ev.eventOrderCompleted.revenue) a
      = a + (l.map (fun ev => ev.eventOrderCompleted.revenue)).sum := by
  induction l generalizing a with
  | nil => simp
  | cons e es ih => simp [ih, add_assoc]

/-- The Revenue field decoded from an Order Completed payload is the spec-side
revenue member of that payload. -/
theorem decoded_revenue_eq_specRevenue (p : Json)
    (hdec : (Event.UnmarshalJSON Event.zero p).2 = none)
    (htype : specStrMember p "type" = some "Order Completed") :
    (Event.UnmarshalJSON Event.zero p).1.eventOrderCompleted.revenue
      = specRevenue p := by
  obtain ⟨ev, err, hu⟩ :
      ∃ ev err, Event.UnmarshalJSON Event.zero p = (ev, err) := ⟨_, _, rfl⟩
  rw [hu] at hdec ⊢
  dsimp only at hdec ⊢
  subst hdec
  cases p with
  | obj kvs =>
    simp only [Event.UnmarshalJSON] at hu
    repeat' split at hu
    all_goals injection hu with hu1 hu2
    all_goals try exact Option.noConfusion hu2
    all_goals subst hu1
    · simp_all [specStrMember]
    · rename_i tag htag oc heq_d
      simp only [EventOrderCompleted.decodeFrom] at heq_d
      repeat' split at heq_d
      all_goals try exact Except.noConfusion heq_d
      injection heq_d with hoc
      subst hoc
      rename_i r heq_r
      simp only [decodeNumField] at heq_r
      split at heq_r
      all_goals try exact Except.noConfusion heq_r
      all_goals injection heq_r with hr
      all_goals subst hr
      all_goals simp_all [specRevenue, Event.zero, EventOrderCompleted.zero]
    · simp_all [specStrMember]
  | null => cases htype
  | bool c => cases htype
  | num q => cases htype
  | str s => cases htype
  | arr xs => cases htype

/-- C4: when the query succeeds and every stored payload decodes as an event,
getLTV responds 200 with, as plain text, the sum of the revenue fields of
exactly those stored events whose type is "Order Completed" and whose userId
equals the given identifier. -/
theorem getLTV_sums_matching_revenues (userID : String) (store : List Json)
    (hstore : ∀ p ∈ store, (Event.UnmarshalJSON Event.zero p).2 = none) :
    getLTV userID store none
      = ⟨some 200, [Out.fnum (ltvSpec userID store)]⟩ := by
  have hsel : ∀ p ∈ store.filter (sqlWhere userID),
      (Event.UnmarshalJSON Event.zero p).2 = none :=
    fun p hp => hstore p (List.mem_of_mem_filter hp)
  have hdec := decodeAll_ok _ hsel
  have hsum :
      ((store.filter (sqlWhere userID)).map
          (fun p => (Event.UnmarshalJSON Event.zero p).1)).foldl
        (fun acc ev => acc + ev.eventOrderCompleted.revenue) 0
        = ltvSpec userID store := by
    rw [foldl_add_revenue, zero_add, List.map_map]
    unfold ltvSpec
    rw [List.filter_congr (fun p _ => (sqlWhere_eq_specIsOrderOf userID p))]
    refine congrArg List.sum (List.map_congr_left (fun p hp => ?_))
    have hmem : p ∈ store := List.mem_of_mem_filter hp
    have hspec : specIsOrderOf userID p = true := List.of_mem_filter hp
    have htype : specStrMember p "type" = some "Order Completed" := by
      have := hspec
      unfold specIsOrderOf at this
      exact of_decide_eq_true (Bool.and_elim_left this)
    exact decoded_revenue_eq_specRevenue p (hstore p hmem) htype
  simp [getLTV, hdec, hsum, ResponseWriter.init, ResponseWriter.writeHeader,
    ResponseWriter.write]

/-- C10: when the query succeeds and no stored event is an Order Completed
event of the given user, getLTV responds 200 with the sum 0 as plain text. -/
theorem getLTV_no_matching_orders_returns_zero (userID : String)
    (store : List Json)
    (hnone : ∀ p ∈ store, specIsOrderOf userID p = false) :
    getLTV userID store none = ⟨some 200, [Out.fnum 0]⟩ := by
  have hfilter : store.filter (sqlWhere userID) = [] :=
    List.filter_eq_nil_iff.mpr (fun p hp => by
      rw [sqlWhere_eq_specIsOrderOf, hnone p hp]
      exact Bool.false_ne_true)
  simp [getLTV, hfilter, decodeAll, ResponseWriter.init,
    ResponseWriter.writeHeader, ResponseWriter.write]

/-- C10 witness: a store holding one Heartbeat event of another user. -/
theorem getLTV_no_matching_orders_returns_zero_witness :
    getLTV "carol"
        [Json.obj [("type", Json.str "Heartbeat"),
                   ("userId", Json.str "dave")]] none
      = ⟨some 200, [Out.fnum 0]⟩ :=
  getLTV_no_matching_orders_returns_zero "carol"
    [Json.obj [("type", Json.str "Heartbeat"), ("userId", Json.str "dave")]]
    (by decide)

/-- C4 witness: two Order Completed events for alice (revenues 3 and 4), one
page view for alice, one Order Completed for bob; the LTV of alice is 7. -/
theorem getLTV_sums_matching_revenues_witness :
    getLTV "alice"
        [Json.obj [("type", Json.str "Order Completed"),
                   ("timestamp", Json.str "2019-10-26T00:00:00Z"),
                   ("userId", Json.str "alice"), ("revenue", Json.num 3)],
         Json.obj [("type", Json.str "Page Viewed"),
                   ("url", Json.str "https://example.com"),
                   ("userId", Json.str "alice")],
         Json.obj [("type", Json.str "Order Completed"),
                   ("userId", Json.str "alice"), ("revenue", Json.num 4)],
         Json.obj [("type", Json.str "Order Completed"),
                   ("userId", Json.str "bob"), ("revenue", Json.num 10)]] none
      = ⟨some 200,
         [Out.fnum (ltvSpec "alice"
            [Json.obj [("type", Json.str "Order Completed"),
                       ("timestamp", Json.str "2019-10-26T00:00:00Z"),
                       ("userId", Json.str "alice"), ("revenue", Json.num 3)],
             Json.obj [("type", Json.str "Page Viewed"),
                       ("url", Json.str "https://example.com"),
                       ("userId", Json.str "alice")],
             Json.obj [("type", Json.str "Order Completed"),
                       ("userId", Json.str "alice"), ("revenue", Json.num 4)],
             Json.obj [("type", Json.str "Order Completed"),
                       ("userId", Json.str "bob"),
                       ("revenue", Json.num 10)]])]⟩ ∧
    ltvSpec "alice"
        [Json.obj [("type", Json.str "Order Completed"),
                   ("timestamp", Json.str "2019-10-26T00:00:00Z"),
                   ("userId", Json.str "alice"), ("revenue", Json.num 3)],
         Json.obj [("type", Json.str "Page Viewed"),
                   ("url", Json.str "https://example.com"),
                   ("userId", Json.str "alice")],
         Json.obj [("type", Json.str "Order Completed"),
                   ("userId", Json.str "alice"), ("revenue", Json.num 4)],
         Json.obj [("type", Json.str "Order Completed"),
                   ("userId", Json.str "bob"), ("revenue", Json.num 10)]] = 7 :=
  ⟨getLTV_sums_matching_revenues "alice"
     [Json.obj [("type", Json.str "Order Completed"),
                ("timestamp", Json.str "2019-10-26T00:00:00Z"),
                ("userId", Json.str "alice"), ("revenue", Json.num 3)],
      Json.obj [("type", Json.str "Page Viewed"),
                ("url", Json.str "https://example.com"),
                ("userId", Json.str "alice")],
      Json.obj [("type", Json.str "Order Completed"),
                ("userId", Json.str "alice"), ("revenue", Json.num 4)],
      Json.obj [("type", Json.str "Order Completed"),
                ("userId", Json.str "bob"), ("revenue", Json.num 10)]]
     (by decide),
   by
     rw [show ltvSpec "alice"
         [Json.obj [("type", Json.str "Order Completed"),
                    ("timestamp", Json.str "2019-10-26T00:00:00Z"),
                    ("userId", Json.str "alice"), ("revenue", Json.num 3)],
          Json.obj [("type", Json.str "Page Viewed"),
                    ("url", Json.str "https://example.com"),
                    ("userId", Json.str "alice")],
          Json.obj [("type", Json.str "Order Completed"),
                    ("userId", Json.str "alice"), ("revenue", Json.num 4)],
          Json.obj [("type", Json.str "Order Completed"),
                    ("userId", Json.str "bob"), ("revenue", Json.num 10)]]
         = [(3 : Rat), 4].sum from rfl]
     norm_num [List.sum_cons, List.sum_nil]⟩
